import Mathlib

/-!
# Verification of the style-forge expression builder

Shallow embedding of `src/lib/core/expression-builder.ts` (the canonical
TypeScript implementation): the `Expression` fluent builder, the
`ConditionalBuilder` / `ConditionalThenBuilder` pair, the `MatchBuilder` /
`MatchFallbackBuilder` pair, the functional form of `Expression.let`, and the
`Layer` record builder.

Modelling conventions:
* Forged output (`ExpressionSpecification` values and anything the TypeScript
  `any` positions can hold) is modelled by the JSON-like type `JValue`.
  JavaScript numbers are modelled exactly as rationals (`JNum.fin`) plus the
  two infinities; every numeric value appearing in the claims is a small
  integer, where the double representation is exact.
* A TypeScript parameter of type `Expression | ExpressionSpecification | any`
  is modelled by `Operand`; the ubiquitous source idiom
  `x instanceof Expression ? x.forge() : x` is `resolveOperand`.
* JavaScript objects whose keys matter (the `Layer` record and its `paint` /
  `layout` sub-records) are modelled as insertion-ordered association lists;
  key assignment (`o[k] = v`) overwrites in place or appends (`setKey`).
* An optional parameter / a field that may hold `undefined` is an `Option`;
  `none` models `undefined`.
-/

namespace StyleForge

/-- A JavaScript number that is not NaN: an exact finite value or ±Infinity.
(The builder never computes with numbers, it only stores them; finite doubles
are modelled exactly as rationals.) -/
inductive JNum where
  | fin : ℚ → JNum
  | posInf : JNum
  | negInf : JNum
deriving DecidableEq, Repr

/-- JSON-like values: the domain of forged expressions and of the raw `any`
arguments accepted by the builder. -/
inductive JValue where
  | null : JValue
  | bool : Bool → JValue
  | num : JNum → JValue
  | str : String → JValue
  | arr : List JValue → JValue
  | obj : List (String × JValue) → JValue

/-- Object key lookup (`o[k]`), first match wins. -/
def getKey : List (String × JValue) → String → Option JValue
  | [], _ => none
  | (k', v') :: rest, k => if k' = k then some v' else getKey rest k

/-- Object key assignment (`o[k] = v`): overwrite in place, else append —
JavaScript objects keep the original position of an overwritten key. -/
def setKey : List (String × JValue) → String → JValue → List (String × JValue)
  | [], k, v => [(k, v)]
  | (k', v') :: rest, k, v =>
      if k' = k then (k, v) :: rest else (k', v') :: setKey rest k v

/-- Embedding of `class Expression`: an immutable wrapper around the forged
array (`private expression: ExpressionSpecification`). -/
structure Expression where
  expression : JValue

/-- `forge(): ExpressionSpecification { return this.expression; }` -/
def Expression.forge (e : Expression) : JValue := e.expression

/-- A value in an `Expression | ExpressionSpecification | any` position. -/
inductive Operand where
  | expr : Expression → Operand
  | raw : JValue → Operand

/-- The source idiom `x instanceof Expression ? x.forge() : x`. -/
def resolveOperand : Operand → JValue
  | .expr e => e.forge
  | .raw v => v

-- Static factory methods for common expressions

/-- `static literal(value) { return new Expression(['literal', value]); }` -/
def Expression.literal (value : JValue) : Expression :=
  ⟨.arr [.str "literal", value]⟩

/-- `static get(property) { return new Expression(['get', property]); }` -/
def Expression.get (property : String) : Expression :=
  ⟨.arr [.str "get", .str property]⟩

/-- `static has(property) { return new Expression(['has', property]); }` -/
def Expression.has (property : String) : Expression :=
  ⟨.arr [.str "has", .str property]⟩

/-- `static zoom() { return new Expression(['zoom']); }` -/
def Expression.zoom : Expression := ⟨.arr [.str "zoom"]⟩

/-- `static var(arg)` for a string argument: `new Expression(['var', arg])`
(the record overload produces a `VarBindings`, see `Expression.varBindings`). -/
def Expression.var (variableName : String) : Expression :=
  ⟨.arr [.str "var", .str variableName]⟩

-- Mathematical operations as chainable methods (instance methods; each one
-- reads `this.forge()` and wraps it, the receiver is never written).

/-- `add(...values)`: `['+', this.forge(), ...values]`. -/
def Expression.add (e : Expression) (values : List Operand) : Expression :=
  ⟨.arr (.str "+" :: e.forge :: values.map resolveOperand)⟩

/-- `subtract(value)`: `['-', this.forge(), value]`. -/
def Expression.subtract (e : Expression) (value : Operand) : Expression :=
  ⟨.arr [.str "-", e.forge, resolveOperand value]⟩

/-- `multiply(...values)`: `['*', this.forge(), ...values]`. -/
def Expression.multiply (e : Expression) (values : List Operand) : Expression :=
  ⟨.arr (.str "*" :: e.forge :: values.map resolveOperand)⟩

/-- `divide(value)`: `['/', this.forge(), value]`. -/
def Expression.divide (e : Expression) (value : Operand) : Expression :=
  ⟨.arr [.str "/", e.forge, resolveOperand value]⟩

/-- `mod(value)`: `['%', this.forge(), value]`. -/
def Expression.mod (e : Expression) (value : Operand) : Expression :=
  ⟨.arr [.str "%", e.forge, resolveOperand value]⟩

/-- `pow(exponent)`: `['^', this.forge(), exponent]`. -/
def Expression.pow (e : Expression) (exponent : Operand) : Expression :=
  ⟨.arr [.str "^", e.forge, resolveOperand exponent]⟩

/-- `sqrt()`: `['sqrt', this.forge()]`. -/
def Expression.sqrt (e : Expression) : Expression :=
  ⟨.arr [.str "sqrt", e.forge]⟩

/-- `log10()`: `['log10', this.forge()]`. -/
def Expression.log10 (e : Expression) : Expression :=
  ⟨.arr [.str "log10", e.forge]⟩

-- Comparison operations as chainable methods

/-- `eq(value)`: `['==', this.forge(), value]`. -/
def Expression.eq (e : Expression) (value : Operand) : Expression :=
  ⟨.arr [.str "==", e.forge, resolveOperand value]⟩

/-- `neq(value)`: `['!=', this.forge(), value]`. -/
def Expression.neq (e : Expression) (value : Operand) : Expression :=
  ⟨.arr [.str "!=", e.forge, resolveOperand value]⟩

/-- `gt(value)`: `['>', this.forge(), value]`. -/
def Expression.gt (e : Expression) (value : Operand) : Expression :=
  ⟨.arr [.str ">", e.forge, resolveOperand value]⟩

/-- `gte(value)`: `['>=', this.forge(), value]`. -/
def Expression.gte (e : Expression) (value : Operand) : Expression :=
  ⟨.arr [.str ">=", e.forge, resolveOperand value]⟩

/-- `lt(value)`: `['<', this.forge(), value]`. -/
def Expression.lt (e : Expression) (value : Operand) : Expression :=
  ⟨.arr [.str "<", e.forge, resolveOperand value]⟩

/-- `lte(value)`: `['<=', this.forge(), value]`. -/
def Expression.lte (e : Expression) (value : Operand) : Expression :=
  ⟨.arr [.str "<=", e.forge, resolveOperand value]⟩

-- Logical operations as chainable methods

/-- `and(...conditions)`: `['all', this.forge(), ...conditions]`. -/
def Expression.and (e : Expression) (conditions : List Operand) : Expression :=
  ⟨.arr (.str "all" :: e.forge :: conditions.map resolveOperand)⟩

/-- `or(...conditions)`: `['any', this.forge(), ...conditions]`. -/
def Expression.or (e : Expression) (conditions : List Operand) : Expression :=
  ⟨.arr (.str "any" :: e.forge :: conditions.map resolveOperand)⟩

-- Type conversion as chainable methods

/-- `toNumber()`: `['to-number', this.forge()]`. -/
def Expression.toNumber (e : Expression) : Expression :=
  ⟨.arr [.str "to-number", e.forge]⟩

/-- `toString()`: `['to-string', this.forge()]`. -/
def Expression.toString (e : Expression) : Expression :=
  ⟨.arr [.str "to-string", e.forge]⟩

/-- `toBoolean()`: `['to-boolean', this.forge()]`. -/
def Expression.toBoolean (e : Expression) : Expression :=
  ⟨.arr [.str "to-boolean", e.forge]⟩

/-- `toColor()`: `['to-color', this.forge()]`. -/
def Expression.toColor (e : Expression) : Expression :=
  ⟨.arr [.str "to-color", e.forge]⟩

-- String operations as chainable methods

/-- `concat(...values)`: `['concat', this.forge(), ...values]`. -/
def Expression.concat (e : Expression) (values : List Operand) : Expression :=
  ⟨.arr (.str "concat" :: e.forge :: values.map resolveOperand)⟩

/-- `downcase()`: `['downcase', this.forge()]`. -/
def Expression.downcase (e : Expression) : Expression :=
  ⟨.arr [.str "downcase", e.forge]⟩

/-- `upcase()`: `['upcase', this.forge()]`. -/
def Expression.upcase (e : Expression) : Expression :=
  ⟨.arr [.str "upcase", e.forge]⟩

-- Lookup operations as chainable methods

/-- `length()`: `['length', this.forge()]`. -/
def Expression.length (e : Expression) : Expression :=
  ⟨.arr [.str "length", e.forge]⟩

/-- `at(index)`: `['at', index, this.forge()]` (receiver placed last).
The source method is named `at`, a reserved word in Lean. -/
def Expression.atOp (e : Expression) (index : Operand) : Expression :=
  ⟨.arr [.str "at", resolveOperand index, e.forge]⟩

/-- `slice(start, end?)`: `['slice', this.forge(), start]`, then the end
bound is pushed only when supplied (`end !== undefined`). -/
def Expression.slice (e : Expression) (start : Operand) (stop : Option Operand) :
    Expression :=
  ⟨.arr (.str "slice" :: e.forge :: resolveOperand start ::
    (match stop with
     | some x => [resolveOperand x]
     | none => []))⟩

/-- `in(collection)`: `['in', this.forge(), collection]`. The source method
is named `in`, a reserved word in Lean. -/
def Expression.inOp (e : Expression) (collection : Operand) : Expression :=
  ⟨.arr [.str "in", e.forge, resolveOperand collection]⟩

/-- `indexOf(item, fromIndex?)`: `['index-of', item, this.forge()]` — the
receiver is placed third — and the start offset is pushed only when supplied
(`fromIndex !== undefined`). -/
def Expression.indexOf (e : Expression) (item : Operand)
    (fromIndex : Option Operand) : Expression :=
  ⟨.arr (.str "index-of" :: resolveOperand item :: e.forge ::
    (match fromIndex with
     | some x => [resolveOperand x]
     | none => []))⟩

-- Interpolation and step as chainable methods

/-- `interpolate(interpolation, ...stops)`:
`['interpolate', interpolation, this.forge(), ...stops]`. -/
def Expression.interpolate (e : Expression) (interpolation : JValue)
    (stops : List Operand) : Expression :=
  ⟨.arr (.str "interpolate" :: interpolation :: e.forge ::
    stops.map resolveOperand)⟩

/-- `interpolateHcl(...stops)`: `['interpolate-hcl', this.forge(), ...stops]`. -/
def Expression.interpolateHcl (e : Expression) (stops : List Operand) :
    Expression :=
  ⟨.arr (.str "interpolate-hcl" :: e.forge :: stops.map resolveOperand)⟩

/-- `interpolateLab(...stops)`: `['interpolate-lab', this.forge(), ...stops]`. -/
def Expression.interpolateLab (e : Expression) (stops : List Operand) :
    Expression :=
  ⟨.arr (.str "interpolate-lab" :: e.forge :: stops.map resolveOperand)⟩

/-- `step(min, ...stops)`: `['step', this.forge(), min, ...stops]`. -/
def Expression.step (e : Expression) (min : Operand) (stops : List Operand) :
    Expression :=
  ⟨.arr (.str "step" :: e.forge :: resolveOperand min ::
    stops.map resolveOperand)⟩

/-- `coalesce(...values)`: `['coalesce', this.forge(), ...values]`. -/
def Expression.coalesce (e : Expression) (values : List Operand) : Expression :=
  ⟨.arr (.str "coalesce" :: e.forge :: values.map resolveOperand)⟩

-- Spatial pass-through operations; both branches of the source's
-- `Array.isArray` probe pass the non-Expression value through unchanged, so
-- the body collapses to `resolveOperand`. Note the receiver is not used.

/-- `distance(geojson)`: `['distance', geojsonExpr]`. -/
def Expression.distance (_e : Expression) (geojson : Operand) : Expression :=
  ⟨.arr [.str "distance", resolveOperand geojson]⟩

/-- `within(geojson)`: `['within', geojsonExpr]`. -/
def Expression.within (_e : Expression) (geojson : Operand) : Expression :=
  ⟨.arr [.str "within", resolveOperand geojson]⟩

-- ============================================================================
-- CONDITIONAL BUILDER (when/then/else)
-- ============================================================================

/-- Embedding of `class ConditionalBuilder`: the ordered when/then pairs and
the optional else value (`none` models the field still holding `undefined`). -/
structure ConditionalBuilder where
  conditions : List (Operand × Operand)
  elseValue : Option Operand

/-- `forge()`: `['case', when1, then1, ..., else?]` — every pair is resolved
(Expressions are forged, raw values pass through) and the else value is
appended only when it is not `undefined`. The body only reads the two fields,
no state is written. -/
def ConditionalBuilder.forge (b : ConditionalBuilder) : Expression :=
  ⟨.arr (.str "case" ::
    ((b.conditions.flatMap fun p => [resolveOperand p.1, resolveOperand p.2]) ++
      (match b.elseValue with
       | some v => [resolveOperand v]
       | none => [])))⟩

/-- `addCondition(when, then)`: pushes a pair onto `conditions`. -/
def ConditionalBuilder.addCondition (b : ConditionalBuilder)
    (when then_ : Operand) : ConditionalBuilder :=
  { b with conditions := b.conditions ++ [(when, then_)] }

/-- `setElse(value)`: assigns `elseValue`. -/
def ConditionalBuilder.setElse (b : ConditionalBuilder) (value : Option Operand) :
    ConditionalBuilder :=
  { b with elseValue := value }

/-- `else(value)`: assigns `elseValue` (which may be `undefined`, modelled as
`none`) and immediately forges. The source method is named `else`, a reserved
word in Lean. -/
def ConditionalBuilder.elseOp (b : ConditionalBuilder) (value : Option Operand) :
    Expression :=
  (b.setElse value).forge

/-- Embedding of `class ConditionalThenBuilder`. -/
structure ConditionalThenBuilder where
  conditionalBuilder : ConditionalBuilder
  whenCondition : Operand

/-- `then(value)`: records the pending pair on the underlying builder and
returns that builder. The source method is named `then`, a reserved word in
Lean. -/
def ConditionalThenBuilder.thenOp (t : ConditionalThenBuilder) (value : Operand) :
    ConditionalBuilder :=
  t.conditionalBuilder.addCondition t.whenCondition value

/-- `ConditionalBuilder.when(condition)`: a `ConditionalThenBuilder` over the
same underlying builder. -/
def ConditionalBuilder.when (b : ConditionalBuilder) (condition : Operand) :
    ConditionalThenBuilder :=
  ⟨b, condition⟩

/-- `static Expression.when(condition)`: a fresh `ConditionalBuilder` wrapped
in a `ConditionalThenBuilder`. -/
def Expression.when (condition : Operand) : ConditionalThenBuilder :=
  ⟨⟨[], none⟩, condition⟩

-- ============================================================================
-- JAVASCRIPT STRING-TO-NUMBER COERCION (for MatchBuilder.branches)
-- ============================================================================

/-- The characters trimmed by JavaScript's string-to-number coercion
(ECMAScript WhiteSpace and LineTerminator). -/
def jsWhitespaceChar (c : Char) : Bool :=
  c = ' ' || c = '\t' || c = '\n' || c = '\r' ||
  c = '\x0b' || c = '\x0c' || c = ' ' || c = '﻿' ||
  c = ' ' || (0x2000 ≤ c.toNat && c.toNat ≤ 0x200A) ||
  c = ' ' || c = ' ' || c = ' ' || c = ' ' ||
  c = '　'

/-- `'0' ≤ c ≤ '9'`. -/
def isDigitChar (c : Char) : Bool := 48 ≤ c.toNat && c.toNat ≤ 57

/-- Hexadecimal digit. -/
def isHexDigitChar (c : Char) : Bool :=
  isDigitChar c || (97 ≤ c.toNat && c.toNat ≤ 102) ||
  (65 ≤ c.toNat && c.toNat ≤ 70)

/-- Octal digit. -/
def isOctalDigitChar (c : Char) : Bool := 48 ≤ c.toNat && c.toNat ≤ 55

/-- Binary digit. -/
def isBinaryDigitChar (c : Char) : Bool := c = '0' || c = '1'

/-- Value of one digit (decimal or hexadecimal). -/
def digitVal (c : Char) : ℕ :=
  if 97 ≤ c.toNat then c.toNat - 87
  else if 65 ≤ c.toNat then c.toNat - 55
  else c.toNat - 48

/-- Digit-string value in the given base. -/
def digitsVal (base : ℕ) (l : List Char) : ℕ :=
  l.foldl (fun a c => a * base + digitVal c) 0

/-- Exponent suffix of an ECMAScript `StrDecimalLiteral`: empty means exponent
0; otherwise `e`/`E`, an optional sign and at least one digit, consuming the
whole rest. `none` means the literal is malformed (NaN). -/
def parseExpPart : List Char → Option ℤ
  | [] => some 0
  | 'e' :: r => parseSignedDigits r
  | 'E' :: r => parseSignedDigits r
  | _ => none
where
  parseSignedDigits : List Char → Option ℤ
    | '+' :: r2 =>
        if r2 ≠ [] && r2.all isDigitChar then some (digitsVal 10 r2) else none
    | '-' :: r2 =>
        if r2 ≠ [] && r2.all isDigitChar then some (-(digitsVal 10 r2 : ℤ))
        else none
    | r2 =>
        if r2 ≠ [] && r2.all isDigitChar then some (digitsVal 10 r2) else none

/-- An ECMAScript `StrUnsignedDecimalLiteral` other than `Infinity`:
`digits [. digits] [exp]` or `. digits [exp]`, with its exact rational value.
`none` means NaN. -/
def parseUnsignedDec (l : List Char) : Option ℚ :=
  let intPart := l.takeWhile isDigitChar
  let rest1 := l.drop intPart.length
  if intPart.isEmpty then
    match rest1 with
    | '.' :: r2 =>
        let frac := r2.takeWhile isDigitChar
        if frac.isEmpty then none
        else
          (parseExpPart (r2.drop frac.length)).map fun e =>
            (digitsVal 10 frac : ℚ) / (10 : ℚ) ^ frac.length * (10 : ℚ) ^ e
    | _ => none
  else
    match rest1 with
    | '.' :: r2 =>
        let frac := r2.takeWhile isDigitChar
        (parseExpPart (r2.drop frac.length)).map fun e =>
          (digitsVal 10 (intPart ++ frac) : ℚ) / (10 : ℚ) ^ frac.length *
            (10 : ℚ) ^ e
    | r =>
        (parseExpPart r).map fun e => (digitsVal 10 intPart : ℚ) * (10 : ℚ) ^ e

/-- JavaScript `Number(s)` for a string argument (ECMAScript StringToNumber):
trim whitespace; the empty remainder is `0`; a `0x`/`0o`/`0b` radix literal;
otherwise an optionally signed decimal literal or `Infinity`. `none` models
NaN. Finite doubles are modelled exactly as rationals (exact for every key
appearing in the claims; JavaScript would round a >17-significant-digit
literal to the nearest double). `-0` is modelled as `0`. -/
def jsStringToNumber (s : String) : Option JNum :=
  let t := ((s.toList.dropWhile jsWhitespaceChar).reverse.dropWhile
    jsWhitespaceChar).reverse
  match t with
  | [] => some (.fin 0)
  | '0' :: 'x' :: rest =>
      if rest ≠ [] && rest.all isHexDigitChar then
        some (.fin (digitsVal 16 rest : ℚ))
      else none
  | '0' :: 'X' :: rest =>
      if rest ≠ [] && rest.all isHexDigitChar then
        some (.fin (digitsVal 16 rest : ℚ))
      else none
  | '0' :: 'o' :: rest =>
      if rest ≠ [] && rest.all isOctalDigitChar then
        some (.fin (digitsVal 8 rest : ℚ))
      else none
  | '0' :: 'O' :: rest =>
      if rest ≠ [] && rest.all isOctalDigitChar then
        some (.fin (digitsVal 8 rest : ℚ))
      else none
  | '0' :: 'b' :: rest =>
      if rest ≠ [] && rest.all isBinaryDigitChar then
        some (.fin (digitsVal 2 rest : ℚ))
      else none
  | '0' :: 'B' :: rest =>
      if rest ≠ [] && rest.all isBinaryDigitChar then
        some (.fin (digitsVal 2 rest : ℚ))
      else none
  | l =>
      let signBody : ℚ × List Char :=
        match l with
        | '+' :: r => (1, r)
        | '-' :: r => (-1, r)
        | r => (1, r)
      if signBody.2 = "Infinity".toList then
        some (if signBody.1 = 1 then .posInf else .negInf)
      else
        (parseUnsignedDec signBody.2).map fun q => .fin (signBody.1 * q)

-- ============================================================================
-- MATCH BUILDER (match/branches/fallback)
-- ============================================================================

/-- The key-normalization step of `MatchBuilder.branches`:
`isNaN(Number(key)) ? key : Number(key)`. -/
def parsedKey (key : String) : JValue :=
  match jsStringToNumber key with
  | some n => .num n
  | none => .str key

/-- Embedding of `class MatchBuilder`: the match subject, the ordered
key/result pairs (keys already normalized, so a key is a string or a number),
and the optional fallback (`none` models `undefined`). -/
structure MatchBuilder where
  input : Operand
  conditions : List (JValue × Operand)
  elseValue : Option Operand

/-- `forge()`: `['match', input, key1, result1, ..., else?]` — the fallback is
appended only when it is not `undefined`. -/
def MatchBuilder.forge (b : MatchBuilder) : Expression :=
  ⟨.arr (.str "match" :: resolveOperand b.input ::
    ((b.conditions.flatMap fun p => [p.1, resolveOperand p.2]) ++
      (match b.elseValue with
       | some v => [resolveOperand v]
       | none => [])))⟩

/-- `setElse(value)`. -/
def MatchBuilder.setElse (b : MatchBuilder) (value : Option Operand) :
    MatchBuilder :=
  { b with elseValue := value }

/-- Embedding of `class MatchFallbackBuilder`. -/
structure MatchFallbackBuilder where
  matchBuilder : MatchBuilder

/-- `branches(branches)`: iterates `Object.entries` of the record — modelled
as the already-enumerated list of string keys and values (JavaScript records
always surface their keys as strings; the enumeration order, integer-like keys
first in ascending order then the rest in insertion order, is taken as given
by the caller) — normalizing each key with
`isNaN(Number(key)) ? key : Number(key)` and pushing the pairs. -/
def MatchBuilder.branches (b : MatchBuilder)
    (branches : List (String × Operand)) : MatchFallbackBuilder :=
  ⟨{ b with
      conditions :=
        b.conditions ++ branches.map fun p => (parsedKey p.1, p.2) }⟩

/-- `MatchFallbackBuilder.fallback(value)`: sets the fallback (which may be
`undefined`, modelled as `none`) on the underlying builder and forges. -/
def MatchFallbackBuilder.fallback (fb : MatchFallbackBuilder)
    (value : Option Operand) : Expression :=
  (fb.matchBuilder.setElse value).forge

/-- Instance method `match()`: `new MatchBuilder(this)` with no branches yet.
The source method is named `match`, a reserved word in Lean. -/
def Expression.matchOn (e : Expression) : MatchBuilder :=
  ⟨.expr e, [], none⟩

-- ============================================================================
-- SCOPED VARIABLE BINDINGS (let, functional form / var)
-- ============================================================================

/-- Embedding of the branded `VarBindings` record produced by the record
overload of `static Expression.var` (the Lean structure is nominal, playing
the role of the `__brand` tag). In the canonical source nothing ever consumes
a `VarBindings`. -/
structure VarBindings where
  bindings : List (String × Operand)

/-- `static var(arg)` for a record argument:
`{ __brand: 'VarBindings', bindings: arg }`. -/
def Expression.varBindings (arg : List (String × Operand)) : VarBindings :=
  ⟨arg⟩

/-- The functional overload of `static Expression.let(bindings, varFn)`:
builds `$var` references for every initial binding name, hands the callback
the bindings together with those references, and emits
`['let', name1, value1Forged, ..., varFn(...).forge()]` — the callback's
returned Expression is the body; no bindings beyond the initial ones are
emitted. The source method is named `let`, a reserved word in Lean. -/
def Expression.letFn (bindings : List (String × Operand))
    (varFn : List (String × Operand) → List (String × Expression) → Expression) :
    Expression :=
  let varRefs := bindings.map fun p => (p.1, Expression.var p.1)
  let resultExpression := varFn bindings varRefs
  ⟨.arr (.str "let" ::
    ((bindings.flatMap fun p => [.str p.1, resolveOperand p.2]) ++
      [resultExpression.forge]))⟩

-- ============================================================================
-- LAYER BUILDER
-- ============================================================================

/-- Embedding of `class Layer`: its single field `private layer: any = {}`,
a JavaScript object modelled as an insertion-ordered association list. -/
structure Layer where
  layer : List (String × JValue)

/-- The constructor:
`this.layer = { id, type, source, ...(sourceLayer && { 'source-layer': sourceLayer }) }`.
The spread is guarded by the truthiness of `sourceLayer`, so both an absent
argument (`none`) and the empty string are omitted. -/
def Layer.make (type id source : String) (sourceLayer : Option String) :
    Layer :=
  ⟨[("id", .str id), ("type", .str type), ("source", .str source)] ++
    (match sourceLayer with
     | some sl => if sl = "" then [] else [("source-layer", .str sl)]
     | none => [])⟩

/-- `setPaintProperty(key, value)`:
`if (!this.layer.paint) this.layer.paint = {}; this.layer.paint[key] = value`.
Under this API `paint` is only ever absent or an object, so the falsy check is
the `some (.obj m)` match. The method mutates `this` in place and returns
`this`; in state-passing form the updated state is the returned record. -/
def Layer.setPaintProperty (l : Layer) (key : String) (value : JValue) : Layer :=
  match getKey l.layer "paint" with
  | some (.obj m) => ⟨setKey l.layer "paint" (.obj (setKey m key value))⟩
  | _ => ⟨setKey l.layer "paint" (.obj [(key, value)])⟩

/-- `setLayoutProperty(key, value)`: same shape as `setPaintProperty` with the
`layout` sub-record. -/
def Layer.setLayoutProperty (l : Layer) (key : String) (value : JValue) :
    Layer :=
  match getKey l.layer "layout" with
  | some (.obj m) => ⟨setKey l.layer "layout" (.obj (setKey m key value))⟩
  | _ => ⟨setKey l.layer "layout" (.obj [(key, value)])⟩

/-- `fillColor(color)`: the source body is the `setPaintProperty` body with the
fixed key `'fill-color'` (each named paint/layout setter below is likewise a
verbatim copy of the generic setter with its fixed hyphenated key). -/
def Layer.fillColor (l : Layer) (color : JValue) : Layer :=
  l.setPaintProperty "fill-color" color

/-- `fillOpacity(opacity)`: paint key `'fill-opacity'`. -/
def Layer.fillOpacity (l : Layer) (opacity : JValue) : Layer :=
  l.setPaintProperty "fill-opacity" opacity

/-- `fillOutlineColor(color)`: paint key `'fill-outline-color'`. -/
def Layer.fillOutlineColor (l : Layer) (color : JValue) : Layer :=
  l.setPaintProperty "fill-outline-color" color

/-- `lineColor(color)`: paint key `'line-color'`. -/
def Layer.lineColor (l : Layer) (color : JValue) : Layer :=
  l.setPaintProperty "line-color" color

/-- `lineWidth(width)`: paint key `'line-width'`. -/
def Layer.lineWidth (l : Layer) (width : JValue) : Layer :=
  l.setPaintProperty "line-width" width

/-- `circleColor(color)`: paint key `'circle-color'`. -/
def Layer.circleColor (l : Layer) (color : JValue) : Layer :=
  l.setPaintProperty "circle-color" color

/-- `circleRadius(radius)`: paint key `'circle-radius'`. -/
def Layer.circleRadius (l : Layer) (radius : JValue) : Layer :=
  l.setPaintProperty "circle-radius" radius

/-- `textField(field)`: layout key `'text-field'`. -/
def Layer.textField (l : Layer) (field : JValue) : Layer :=
  l.setLayoutProperty "text-field" field

/-- `textSize(size)`: layout key `'text-size'`. -/
def Layer.textSize (l : Layer) (size : JValue) : Layer :=
  l.setLayoutProperty "text-size" size

/-- `visibility(visibility)`: layout key `'visibility'`. -/
def Layer.visibility (l : Layer) (value : JValue) : Layer :=
  l.setLayoutProperty "visibility" value

/-- `metadata(metadata)`: `this.layer.metadata = metadata; return this` — a
top-level field, no sub-record. -/
def Layer.metadata (l : Layer) (value : JValue) : Layer :=
  ⟨setKey l.layer "metadata" value⟩

/-- `minZoom(zoom)`: `this.layer['minzoom'] = zoom; return this`. The
argument is typed `number` in the source. -/
def Layer.minZoom (l : Layer) (zoom : JNum) : Layer :=
  ⟨setKey l.layer "minzoom" (.num zoom)⟩

/-- `maxZoom(zoom)`: `this.layer['maxzoom'] = zoom; return this`. -/
def Layer.maxZoom (l : Layer) (zoom : JNum) : Layer :=
  ⟨setKey l.layer "maxzoom" (.num zoom)⟩

/-- `filter(filter)`: `this.layer.filter = filter; return this` — a top-level
field holding an already-forged expression array. -/
def Layer.filter (l : Layer) (value : JValue) : Layer :=
  ⟨setKey l.layer "filter" value⟩

/-- `forge() { return this.layer; }` -/
def Layer.forge (l : Layer) : List (String × JValue) := l.layer

-- State-passing views used by the frame/effect claims. The second component
-- is the receiver's state after the call; it equals the input state exactly
-- when the method body writes no field, which is what the claims assert.

/-- `Expression.forge` in state-passing form: the body is a single `return`
of the field, so the state is returned unchanged. -/
def Expression.forgeS (e : Expression) : JValue × Expression :=
  (e.expression, e)

/-- `ConditionalBuilder.forge` in state-passing form: the body only reads
`conditions` and `elseValue` to assemble the output array. -/
def ConditionalBuilder.forgeS (b : ConditionalBuilder) :
    Expression × ConditionalBuilder :=
  (b.forge, b)

/-- `Layer.forge` in state-passing form: the body is `return this.layer` —
note it returns the live record itself, not a copy. -/
def Layer.forgeS (l : Layer) : List (String × JValue) × Layer :=
  (l.layer, l)

/-- `Layer.fillColor` in state-passing form: the pair is
(returned value, receiver after the call); the method returns `this`, so both
components are the updated record. -/
def Layer.fillColorS (l : Layer) (color : JValue) : Layer × Layer :=
  (l.fillColor color, l.fillColor color)

/-- One call to a `Layer` setter method, with its arguments: every setter the
class defines — the named paint setters, the named layout setters, the two
generic escape hatches and the top-level field setters. -/
inductive LayerSetter where
  | visibility (value : JValue)
  | fillColor (color : JValue)
  | fillOpacity (opacity : JValue)
  | fillOutlineColor (color : JValue)
  | lineColor (color : JValue)
  | lineWidth (width : JValue)
  | circleColor (color : JValue)
  | circleRadius (radius : JValue)
  | textField (field : JValue)
  | textSize (size : JValue)
  | setPaintProperty (key : String) (value : JValue)
  | setLayoutProperty (key : String) (value : JValue)
  | metadata (value : JValue)
  | minZoom (zoom : JNum)
  | maxZoom (zoom : JNum)
  | filter (value : JValue)

/-- Applying one setter to a receiver, in state-passing form: the first
component is the method's returned value, the second is the receiver's state
after the call. Every setter body mutates `this.layer` in place and ends with
`return this`, so both components are the same updated record. -/
def applySetter (s : LayerSetter) (l : Layer) : Layer × Layer :=
  let updated : Layer :=
    match s with
    | .visibility value => l.visibility value
    | .fillColor color => l.fillColor color
    | .fillOpacity opacity => l.fillOpacity opacity
    | .fillOutlineColor color => l.fillOutlineColor color
    | .lineColor color => l.lineColor color
    | .lineWidth width => l.lineWidth width
    | .circleColor color => l.circleColor color
    | .circleRadius radius => l.circleRadius radius
    | .textField field => l.textField field
    | .textSize size => l.textSize size
    | .setPaintProperty key value => l.setPaintProperty key value
    | .setLayoutProperty key value => l.setLayoutProperty key value
    | .metadata value => l.metadata value
    | .minZoom zoom => l.minZoom zoom
    | .maxZoom zoom => l.maxZoom zoom
    | .filter value => l.filter value
  (updated, updated)

-- ============================================================================
-- THE CHAINABLE TRANSFORMATIONS, AS ONE DATATYPE (for the purity claim)
-- ============================================================================

/-- One call to a chainable transformation method of `Expression`, with its
arguments: the arithmetic, comparison, logical, conversion, string, lookup,
interpolation, step, coalesce and spatial methods. -/
inductive Transformation where
  | add (values : List Operand)
  | subtract (value : Operand)
  | multiply (values : List Operand)
  | divide (value : Operand)
  | mod (value : Operand)
  | pow (exponent : Operand)
  | sqrt
  | log10
  | eq (value : Operand)
  | neq (value : Operand)
  | gt (value : Operand)
  | gte (value : Operand)
  | lt (value : Operand)
  | lte (value : Operand)
  | and (conditions : List Operand)
  | or (conditions : List Operand)
  | toNumber
  | toString
  | toBoolean
  | toColor
  | concat (values : List Operand)
  | downcase
  | upcase
  | length
  | atOp (index : Operand)
  | slice (start : Operand) (stop : Option Operand)
  | inOp (collection : Operand)
  | indexOf (item : Operand) (fromIndex : Option Operand)
  | interpolate (interpolation : JValue) (stops : List Operand)
  | interpolateHcl (stops : List Operand)
  | interpolateLab (stops : List Operand)
  | step (min : Operand) (stops : List Operand)
  | coalesce (values : List Operand)
  | distance (geojson : Operand)
  | within (geojson : Operand)

/-- Applying one transformation method to a receiver, in state-passing form:
the first component is the method's result, the second is the receiver's
state after the call. No method body assigns `this.expression`, so every arm
returns the receiver unchanged. -/
def applyTrans (t : Transformation) (e : Expression) : Expression × Expression :=
  (match t with
   | .add values => e.add values
   | .subtract value => e.subtract value
   | .multiply values => e.multiply values
   | .divide value => e.divide value
   | .mod value => e.mod value
   | .pow exponent => e.pow exponent
   | .sqrt => e.sqrt
   | .log10 => e.log10
   | .eq value => e.eq value
   | .neq value => e.neq value
   | .gt value => e.gt value
   | .gte value => e.gte value
   | .lt value => e.lt value
   | .lte value => e.lte value
   | .and conditions => e.and conditions
   | .or conditions => e.or conditions
   | .toNumber => e.toNumber
   | .toString => e.toString
   | .toBoolean => e.toBoolean
   | .toColor => e.toColor
   | .concat values => e.concat values
   | .downcase => e.downcase
   | .upcase => e.upcase
   | .length => e.length
   | .atOp index => e.atOp index
   | .slice start stop => e.slice start stop
   | .inOp collection => e.inOp collection
   | .indexOf item fromIndex => e.indexOf item fromIndex
   | .interpolate interpolation stops => e.interpolate interpolation stops
   | .interpolateHcl stops => e.interpolateHcl stops
   | .interpolateLab stops => e.interpolateLab stops
   | .step min stops => e.step min stops
   | .coalesce values => e.coalesce values
   | .distance geojson => e.distance geojson
   | .within geojson => e.within geojson,
   e)

-- ============================================================================
-- SPEC-SIDE DEFINITION (for the refinement comparison of the key coercion)
-- ============================================================================

/-- Modelled from the spec's words, for comparison with the code's
`isNaN(Number(key))` test: a string that "parses cleanly as a decimal number"
— an optional sign, then decimal digits with an optional fractional part (or
a bare fractional part), with an optional decimal exponent. No whitespace
trimming, no empty string, no `0x`/`0o`/`0b` radix prefix, no `Infinity`. -/
def specDecimalNumber (s : String) : Bool :=
  let l := match s.toList with
    | '+' :: r => r
    | '-' :: r => r
    | r => r
  let intPart := l.takeWhile isDigitChar
  let r1 := l.drop intPart.length
  let afterMantissa : Option (List Char) :=
    if intPart.isEmpty then
      match r1 with
      | '.' :: r2 =>
          let frac := r2.takeWhile isDigitChar
          if frac.isEmpty then none else some (r2.drop frac.length)
      | _ => none
    else
      match r1 with
      | '.' :: r2 => some (r2.drop (r2.takeWhile isDigitChar).length)
      | r => some r
  match afterMantissa with
  | none => false
  | some [] => true
  | some ('e' :: r) => expDigits r
  | some ('E' :: r) => expDigits r
  | some _ => false
where
  expDigits (r : List Char) : Bool :=
    let r2 := match r with
      | '+' :: rr => rr
      | '-' :: rr => rr
      | rr => rr
    !r2.isEmpty && r2.all isDigitChar

-- ============================================================================
-- EVALUATION LEMMAS FOR THE KEY COERCION
-- ============================================================================

/-- `Number('0') = 0`. -/
theorem jsStringToNumber_digit0 : jsStringToNumber "0" = some (.fin 0) := by
  have h : jsStringToNumber "0" =
      some (.fin ((1 : ℚ) * ((digitsVal 10 ['0'] : ℚ) * (10 : ℚ) ^ (0 : ℤ)))) :=
    rfl
  rw [h, show digitsVal 10 ['0'] = 0 from by decide]
  norm_num

/-- `Number('1') = 1`. -/
theorem jsStringToNumber_digit1 : jsStringToNumber "1" = some (.fin 1) := by
  have h : jsStringToNumber "1" =
      some (.fin ((1 : ℚ) * ((digitsVal 10 ['1'] : ℚ) * (10 : ℚ) ^ (0 : ℤ)))) :=
    rfl
  rw [h, show digitsVal 10 ['1'] = 1 from by decide]
  norm_num

/-- The normalized key for `'0'` is the number `0`. -/
theorem parsedKey_digit0 : parsedKey "0" = .num (.fin 0) := by
  simp [parsedKey, jsStringToNumber_digit0]

/-- The normalized key for `'1'` is the number `1`. -/
theorem parsedKey_digit1 : parsedKey "1" = .num (.fin 1) := by
  simp [parsedKey, jsStringToNumber_digit1]

-- ============================================================================
-- HELPER LEMMAS FOR THE LAYER RECORD
-- ============================================================================

/-- Reading back the key just assigned. -/
theorem getKey_setKey (m : List (String × JValue)) (k : String) (v : JValue) :
    getKey (setKey m k v) k = some v := by
  induction m with
  | nil => simp [setKey, getKey]
  | cons hd tl ih =>
      obtain ⟨k', v'⟩ := hd
      by_cases h : k' = k
      · simp [setKey, h, getKey]
      · simp [setKey, h, getKey, ih]

/-- After `fillColor`, the record's `paint` sub-record exists and holds the
color under `'fill-color'`. -/
theorem fillColor_paint (l : Layer) (c : JValue) :
    ∃ m, getKey (l.fillColor c).layer "paint" = some (.obj m) ∧
      getKey m "fill-color" = some c := by
  unfold Layer.fillColor Layer.setPaintProperty
  cases h : getKey l.layer "paint" with
  | none =>
      exact ⟨[("fill-color", c)], by simp [getKey_setKey], by simp [getKey]⟩
  | some v =>
      cases v with
      | obj m =>
          exact ⟨setKey m "fill-color" c, by simp [getKey_setKey],
            getKey_setKey m "fill-color" c⟩
      | null => exact ⟨[("fill-color", c)], by simp [getKey_setKey], by simp [getKey]⟩
      | bool b => exact ⟨[("fill-color", c)], by simp [getKey_setKey], by simp [getKey]⟩
      | num n => exact ⟨[("fill-color", c)], by simp [getKey_setKey], by simp [getKey]⟩
      | str s => exact ⟨[("fill-color", c)], by simp [getKey_setKey], by simp [getKey]⟩
      | arr a => exact ⟨[("fill-color", c)], by simp [getKey_setKey], by simp [getKey]⟩

-- ============================================================================
-- CLAIMS
-- ============================================================================

/-- C1: the claim says the functional form of the scoped binding appends the
additional bindings returned by the callback and closes with an implicit
reference to the last of them, so that
`let({a: get("x")}, vars => bindVar({b: vars.a.multiply(2)}))` forges to
`["let","a",["get","x"],"b",["*",["get","x"],2],["var","b"]]`. The canonical
source does not do this: for the initial bindings `{a: get("x")}` and ANY
callback, the emitted array is the four-element
`["let","a",["get","x"], body]` whose single trailing element is the forged
callback result — no extra bindings, no implicit variable reference; in
particular, the natural callback `vars => vars.a.multiply(2)` yields
`["let","a",["get","x"],["*",["get","x"],2]]`. -/
theorem let_functional_callback_is_body :
    (∀ f, ∃ body,
      (Expression.letFn [("a", .expr (Expression.get "x"))] f).forge =
        .arr [.str "let", .str "a", .arr [.str "get", .str "x"], body]) ∧
    (Expression.letFn [("a", .expr (Expression.get "x"))]
        (fun bindings _ =>
          (match bindings with
           | (_, .expr a) :: _ => a
           | _ => Expression.zoom).multiply
            [.raw (.num (.fin 2))])).forge =
      .arr [.str "let", .str "a", .arr [.str "get", .str "x"],
        .arr [.str "*", .arr [.str "get", .str "x"], .num (.fin 2)]] :=
  ⟨fun f =>
    ⟨(f [("a", .expr (Expression.get "x"))] [("a", Expression.var "a")]).forge,
      rfl⟩,
    rfl⟩

/-- C2: chained arithmetic nests left-to-right with the receiver's forged
array first: `get("magnitude").multiply(10).add(5).divide(2)` forges to
`["/",["+",["*",["get","magnitude"],10],5],2]`. -/
theorem arithmetic_chain_left_nested :
    ((((Expression.get "magnitude").multiply
        [.raw (.num (.fin 10))]).add
        [.raw (.num (.fin 5))]).divide
        (.raw (.num (.fin 2)))).forge =
      .arr [.str "/",
        .arr [.str "+",
          .arr [.str "*", .arr [.str "get", .str "magnitude"],
            .num (.fin 10)],
          .num (.fin 5)],
        .num (.fin 2)] := rfl

/-- C3 counterexample: the claim's "stored as a number exactly when it parses
cleanly as a decimal number" fails at the key `""`: the empty string does not
parse as a decimal number, yet `Number("") = 0` is not NaN, so the code stores
it as the numeric key `0`. -/
theorem match_key_empty_string_coerced :
    ((((Expression.get "t").matchOn).branches
        [("", .raw (.str "v"))]).fallback (some (.raw (.str "d")))).forge =
      .arr [.str "match", .arr [.str "get", .str "t"],
        .num (.fin 0), .str "v", .str "d"] ∧
    specDecimalNumber "" = false :=
  ⟨rfl, rfl⟩

/-- C3 (amended): a string key is stored as a number exactly when JavaScript's
`Number()` coercion of it is not NaN — this includes every decimal-number
string, but also the empty or whitespace-only string (coerced to 0),
`0x`/`0o`/`0b` radix literals and `Infinity` forms — and is kept as the
original string otherwise; in particular the branches
`{"0": "low", "1": "mid"}` forge with the numeric keys `0` and `1`. -/
theorem match_branches_numeric_key_coercion :
    (∀ k : String,
      (∃ n, parsedKey k = JValue.num n) ↔ (jsStringToNumber k).isSome) ∧
    (∀ k : String, jsStringToNumber k = none → parsedKey k = .str k) ∧
    ((((Expression.get "bucket").matchOn).branches
        [("0", .raw (.str "low")), ("1", .raw (.str "mid"))]).fallback
        (some (.raw (.str "hi")))).forge =
      .arr [.str "match", .arr [.str "get", .str "bucket"],
        .num (.fin 0), .str "low", .num (.fin 1), .str "mid",
        .str "hi"] := by
  refine ⟨?_, ?_, ?_⟩
  · intro k
    cases h : jsStringToNumber k <;> simp [parsedKey, h]
  · intro k h
    simp [parsedKey, h]
  · simp [Expression.matchOn, MatchBuilder.branches, MatchBuilder.setElse,
      MatchFallbackBuilder.fallback, MatchBuilder.forge, resolveOperand,
      Expression.forge, Expression.get, parsedKey_digit0, parsedKey_digit1,
      List.flatMap]

/-- C3 witness: the amended theorem applied at the non-numeric key `"abc"`. -/
theorem match_branches_numeric_key_coercion_witness :
    parsedKey "abc" = .str "abc" :=
  match_branches_numeric_key_coercion.2.1 "abc" rfl

/-- C4: for already-forged primitive values `cond`, `a`, `b`, the chain
`when(cond).then(a).else(b)` forges to the direct array literal
`["case", cond, a, b]`. -/
theorem when_then_else_case_array :
    ∀ cond a b : JValue,
      (((Expression.when (.raw cond)).thenOp (.raw a)).elseOp
        (some (.raw b))).forge = .arr [.str "case", cond, a, b] :=
  fun _ _ _ => rfl

/-- C5: `literal(v)` forges to `["literal", v]`, `get(p)` to `["get", p]` and
`has(p)` to `["has", p]`, for every value `v` and property name `p`. -/
theorem literal_get_has_forge :
    (∀ v : JValue, (Expression.literal v).forge = .arr [.str "literal", v]) ∧
    (∀ p : String, (Expression.get p).forge = .arr [.str "get", .str p]) ∧
    (∀ p : String, (Expression.has p).forge = .arr [.str "has", .str p]) :=
  ⟨fun _ => rfl, fun _ => rfl, fun _ => rfl⟩

/-- C6: `indexOf` places the receiver third, after the tag and the search
item: `get("tags").indexOf("urgent", 1)` forges to
`["index-of","urgent",["get","tags"],1]`, and without a start offset the
emitted array stops after the receiver (no fourth element). -/
theorem indexOf_receiver_third :
    (((Expression.get "tags").indexOf (.raw (.str "urgent"))
        (some (.raw (.num (.fin 1))))).forge =
      .arr [.str "index-of", .str "urgent",
        .arr [.str "get", .str "tags"], .num (.fin 1)]) ∧
    (∀ (e : Expression) (item : Operand),
      (e.indexOf item none).forge =
        .arr [.str "index-of", resolveOperand item, e.forge]) :=
  ⟨rfl, fun _ _ => rfl⟩

/-- C7: no chainable transformation mutates its receiver — for every
transformation call, the receiver's state after the call equals its state
before, and the call returns a freshly constructed tag-first expression
node. -/
theorem transformations_pure_no_mutation :
    ∀ (t : Transformation) (e : Expression),
      (applyTrans t e).2 = e ∧
      ∃ tag rest, (applyTrans t e).1.forge = .arr (.str tag :: rest) := by
  intro t e
  refine ⟨rfl, ?_⟩
  cases t <;> exact ⟨_, _, rfl⟩

/-- C8: forging twice in succession with no intervening operation yields
structurally equal output both times, for an Expression node, a conditional
chain builder and a Layer record. -/
theorem forge_idempotent :
    ∀ (e : Expression) (b : ConditionalBuilder) (l : Layer),
      e.forgeS.2.forgeS.1 = e.forgeS.1 ∧
      b.forgeS.2.forgeS.1 = b.forgeS.1 ∧
      l.forgeS.2.forgeS.1 = l.forgeS.1 :=
  fun _ _ _ => ⟨rfl, rfl, rfl⟩

/-- C9: every Layer setter's returned value is the mutated receiver itself
(in-place mutation with fluent `return this`); after any setter, forging
twice yields equal records; forging is side-effect-free, so interposing a
forge before any setter changes nothing about the record the next forge
returns; and concretely, setting a new color after a first forge and forging
again surfaces the new value in the `paint` sub-record (the record is a live
view, not a snapshot). -/
theorem layer_setters_fluent_live_view :
    ∀ (s : LayerSetter) (l : Layer) (c c' : JValue),
      (applySetter s l).1 = (applySetter s l).2 ∧
      ((applySetter s l).1.forgeS.2.forgeS.1 = (applySetter s l).1.forgeS.1) ∧
      ((applySetter s l.forgeS.2).1.forgeS.1 = (applySetter s l).1.layer) ∧
      (∃ m, getKey (((l.fillColor c).forgeS.2.fillColor c').forgeS.1) "paint"
          = some (.obj m) ∧ getKey m "fill-color" = some c') := by
  intro s l c c'
  refine ⟨rfl, rfl, rfl, ?_⟩
  exact fillColor_paint (l.fillColor c) c'

/-- C10: terminating a conditional chain with `else(undefined)` or a match
chain with `fallback(undefined)` leaves the default out of the forged array
entirely: `when(c).then(a).else(undefined)` forges to `["case", c, a]`, and a
single-branch match with `fallback(undefined)` forges with no trailing
default. -/
theorem omitted_default_when_undefined :
    (∀ cond a : JValue,
      (((Expression.when (.raw cond)).thenOp (.raw a)).elseOp none).forge =
        .arr [.str "case", cond, a]) ∧
    ((((Expression.get "k").matchOn).branches
        [("x", .raw (.str "v"))]).fallback none).forge =
      .arr [.str "match", .arr [.str "get", .str "k"], .str "x",
        .str "v"] :=
  ⟨fun _ _ => rfl, rfl⟩

end StyleForge
